import Mathlib

/-!
Verification of `tpu/templates/tpu_cnn_estimator/trainer.py`, a TensorFlow
estimator training template, against its natural-language specification.

The Python script is shallowly embedded: TensorFlow graph construction is
represented by symbolic expression data (`LayerOp`, `DatasetExpr`,
`EstimatorSpecData`), the sequence of framework calls made by `main` is an
explicit trace (`List ExtCall`), and the runtime behaviour of the input
pipeline (repeat / batch with drop_remainder on in-memory numpy data) is
given by executable stream semantics.  The numpy random generators are
modelled by arbitrary draw streams piped through the functions that realise
their documented codomains (`np.random.rand` gives floats in [0,1),
`np.random.randint(0, hi)` gives integers in [0, hi)).
-/

namespace Trainer

/-- `NUM_CLASSES = 10` from the top of trainer.py. -/
def NUM_CLASSES : Nat := 10

/-! ## CLI arguments (argparse block of `__main__`) -/

/-- The parsed CLI flags of trainer.py, with the argparse defaults. -/
structure Args where
  model_dir : String := "/tmp/tpu-template"
  max_steps : Nat := 1000
  train_batch_size : Nat := 16
  save_checkpoints_steps : Nat := 100
  use_tpu : Bool := false
  tpu : Option String := none
deriving DecidableEq, Repr

/-- The numeric values carried by the numeric CLI flags of `args`. -/
def flagNatValues (args : Args) : List Nat :=
  [args.max_steps, args.train_batch_size, args.save_checkpoints_steps]

/-! ## model_fn : layer graph and estimator spec -/

/-- The three estimator modes of `tf.estimator.ModeKeys`. -/
inductive ModeKeys where
  | TRAIN
  | EVAL
  | PREDICT
deriving DecidableEq, Repr

/-- A graph operation created by `model_fn`, with the hyper-parameters the
source passes to the corresponding `tf.layers` call. -/
inductive LayerOp where
  | conv2d (filters : Nat) (kernel_size : Nat × Nat) (strides : Nat × Nat)
  | max_pooling2d (pool_size : Nat × Nat) (strides : Nat × Nat)
  | reshape
  | dense (units : Nat)
  | multinomial (num_samples : Nat)
deriving DecidableEq, Repr

/-- A layer holds trainable variables exactly when it is a convolution or a
dense layer; pooling, reshape and multinomial sampling have no weights. -/
def LayerOp.isTrainable : LayerOp → Bool
  | .conv2d _ _ _ => true
  | .dense _ => true
  | _ => false

/-- The loss expression of the TRAIN branch of `model_fn`:
`tf.reduce_mean(tf.nn.sparse_softmax_cross_entropy_with_logits(...))`. -/
inductive LossExpr where
  | sparseSoftmaxCrossEntropyMean
deriving DecidableEq, Repr

/-- The optimizer object built in the TRAIN branch of `model_fn`. -/
inductive Optimizer where
  | RMSPropOptimizer (learning_rate : Rat)
  | CrossShardOptimizer (inner : Optimizer)
deriving DecidableEq, Repr

/-- Whether the outermost optimizer is the TPU `CrossShardOptimizer` wrapper. -/
def Optimizer.isCrossShard : Optimizer → Bool
  | .CrossShardOptimizer _ => true
  | _ => false

/-- The `train_op = optimizer.minimize(loss, global_step=global_step)` call. -/
structure TrainOpData where
  optimizer : Optimizer
  minimized : LossExpr
deriving DecidableEq, Repr

/-- Which estimator-spec class `model_fn` returns:
`tf.contrib.tpu.TPUEstimatorSpec` or `tf.estimator.EstimatorSpec`. -/
inductive SpecKind where
  | TPUEstimatorSpec
  | EstimatorSpec
deriving DecidableEq, Repr

/-- The `predictions` tensor: `tf.multinomial(logits, num_samples=1)`. -/
structure PredictionsData where
  num_samples : Nat
deriving DecidableEq, Repr

/-- The estimator spec value returned by `model_fn`. -/
structure EstimatorSpecData where
  kind : SpecKind
  mode : ModeKeys
  predictions : PredictionsData
  loss : Option LossExpr
  train_op : Option TrainOpData
deriving DecidableEq, Repr

/-- The subset of the `params` dict that `model_fn` reads: `params['use_tpu']`. -/
structure ModelFnParams where
  use_tpu : Bool
deriving DecidableEq, Repr

/-- Shallow embedding of `model_fn`.  The first component is the list of graph
operations created, in source order; the second is the returned estimator
spec.  `features` and `labels` are graph tensors whose values do not influence
which operations are created, so they are not parameters of the embedding. -/
def model_fn (mode : ModeKeys) (params : ModelFnParams) :
    List LayerOp × EstimatorSpecData :=
  let layers : List LayerOp :=
    [ LayerOp.conv2d 16 (4, 4) (2, 2)
    , LayerOp.max_pooling2d (4, 4) (2, 2)
    , LayerOp.conv2d 32 (1, 1) (1, 1)
    , LayerOp.max_pooling2d (2, 2) (2, 2)
    , LayerOp.reshape
    , LayerOp.dense NUM_CLASSES
    , LayerOp.multinomial 1 ]
  let predictions : PredictionsData := ⟨1⟩
  let lossAndTrainOp : Option LossExpr × Option TrainOpData :=
    if mode = ModeKeys.TRAIN then
      let loss := LossExpr.sparseSoftmaxCrossEntropyMean
      let optimizer := Optimizer.RMSPropOptimizer (5 / 100)
      let optimizer :=
        if params.use_tpu then Optimizer.CrossShardOptimizer optimizer
        else optimizer
      (some loss, some ⟨optimizer, loss⟩)
    else
      (none, none)
  let kind :=
    if params.use_tpu then SpecKind.TPUEstimatorSpec else SpecKind.EstimatorSpec
  (layers, ⟨kind, mode, predictions, lossAndTrainOp.1, lossAndTrainOp.2⟩)

/-- Whether the spec's train op exists and its optimizer is cross-shard. -/
def trainOpIsCrossShard (spec : EstimatorSpecData) : Bool :=
  match spec.train_op with
  | some t => t.optimizer.isCrossShard
  | none => false

/-! ## train_input_fn : dataset pipeline -/

/-- A numpy random generator used to fabricate the in-memory data:
`np.random.rand` draws uniformly from [0, 1); `np.random.randint(lo, hi)`
draws integers uniformly from [lo, hi). -/
inductive RandomGen where
  | uniformFloat01
  | uniformInt (lo hi : Nat)
deriving DecidableEq, Repr

/-- Symbolic `tf.data` dataset expressions, covering the constructors the
`tf.data` surface offers for sourcing data (in-memory tensor slices of
fabricated random arrays, or external files) and the combinators trainer.py
applies.  `mapSetShapes` records the two static shapes the `set_shapes`
mapper merges into the element shapes (`None` dimensions are `none`). -/
inductive DatasetExpr where
  | fromTensorSlices (xGen : RandomGen) (xShape : List Nat)
      (yGen : RandomGen) (yShape : List Nat)
  | fileSource (paths : List String)
  | repeatDs (d : DatasetExpr)
  | batch (d : DatasetExpr) (batch_size : Nat) (drop_remainder : Bool)
  | mapSetShapes (d : DatasetExpr)
      (featMerge : List (Option Nat)) (labelMerge : List (Option Nat))
  | prefetchDs (d : DatasetExpr)
deriving DecidableEq, Repr

/-- Whether any node of the pipeline reads an external data source. -/
def DatasetExpr.readsExternalData : DatasetExpr → Bool
  | .fromTensorSlices _ _ _ _ => false
  | .fileSource _ => true
  | .repeatDs d => d.readsExternalData
  | .batch d _ _ => d.readsExternalData
  | .mapSetShapes d _ _ => d.readsExternalData
  | .prefetchDs d => d.readsExternalData

/-- The source node at the root of the pipeline. -/
def DatasetExpr.sourceOf : DatasetExpr → DatasetExpr
  | .repeatDs d => d.sourceOf
  | .batch d _ _ => d.sourceOf
  | .mapSetShapes d _ _ => d.sourceOf
  | .prefetchDs d => d.sourceOf
  | d => d

/-- `TensorShape` dimension merge (`merge_with` on one dimension): unknown
merges with anything, known dimensions must agree. -/
def mergeDim : Option Nat → Option Nat → Option (Option Nat)
  | none, d => some d
  | some a, none => some (some a)
  | some a, some b => if a = b then some (some a) else none

/-- `TensorShape.merge_with`: dimension-wise merge; fails on rank mismatch or
incompatible known dimensions. -/
def mergeShape : List (Option Nat) → List (Option Nat) →
    Option (List (Option Nat))
  | [], [] => some []
  | a :: as, b :: bs => do
      let d ← mergeDim a b
      let rest ← mergeShape as bs
      pure (d :: rest)
  | _, _ => none

/-- Static (graph-build time) element shapes of a dataset, as TensorFlow's
shape inference computes them: slicing an in-memory array drops its leading
dimension; `repeat` and `prefetch` preserve shapes; `batch` prepends an
unknown batch dimension (datasets know the batch size only when the graph is
run); the `set_shapes` map merges in its recorded static shapes.  `none`
means the element shapes are not statically determined. -/
def elementShapes : DatasetExpr →
    Option (List (Option Nat) × List (Option Nat))
  | .fromTensorSlices _ xShape _ yShape =>
      some (xShape.tail.map some, yShape.tail.map some)
  | .fileSource _ => none
  | .repeatDs d => elementShapes d
  | .batch d _ _ => do
      let (f, l) ← elementShapes d
      pure (none :: f, none :: l)
  | .mapSetShapes d featMerge labelMerge => do
      let (f, l) ← elementShapes d
      let f ← mergeShape f featMerge
      let l ← mergeShape l labelMerge
      pure (f, l)
  | .prefetchDs d => elementShapes d

/-- The `params` dict handed to `train_input_fn`; the function reads only
`params.get('train_batch_size', 16)`, so only that key is modelled (absent
key = `none`). -/
structure InputParams where
  train_batch_size : Option Nat := none
deriving DecidableEq, Repr

/-- Shallow embedding of `train_input_fn`: the dataset expression it builds,
line by line.  `data_size = 100`, the arrays are `np.random.rand(100,28,28,1)`
and `np.random.randint(0, NUM_CLASSES, 100)`, then `repeat`, `batch` with
`drop_remainder=True`, the `set_shapes` map, and `prefetch`. -/
def train_input_fn (params : InputParams) : DatasetExpr :=
  let data_size := 100
  let dataset := DatasetExpr.fromTensorSlices
    RandomGen.uniformFloat01 [data_size, 28, 28, 1]
    (RandomGen.uniformInt 0 NUM_CLASSES) [data_size]
  let dataset := DatasetExpr.repeatDs dataset
  let batch_size := params.train_batch_size.getD 16
  let dataset := DatasetExpr.batch dataset batch_size true
  let dataset := DatasetExpr.mapSetShapes dataset
    [some batch_size, none, none, none] [some batch_size]
  DatasetExpr.prefetchDs dataset

/-! ### Runtime semantics of the pipeline

The fabricated arrays live in memory, so the pipeline's runtime behaviour is
a stream: `from_tensor_slices` on arrays of leading dimension 100 followed by
`repeat()` yields element `i % 100` at position `i`, and `batch(bs,
drop_remainder=True)` on that infinite stream yields, as batch `n`, the `bs`
consecutive elements starting at `n * bs`.  The random draws are parameters
(`rngX`, `rngY`), piped through the functions realising the numpy
generators' codomains. -/

/-- An element of the fabricated image array: shape 28 x 28 x 1, rational
stand-ins for the float32 values. -/
def Img : Type := Fin 28 → Fin 28 → Fin 1 → Rat

/-- Value model of `np.random.rand`: each draw lands in [0, 1), realised by
taking the fractional part of an arbitrary rational draw stream. -/
def npRandImage (rngX : Nat → Rat) (i : Nat) : Img :=
  fun r c ch => Int.fract (rngX (((i * 28 + r.val) * 28 + c.val) + ch.val))

/-- Value model of `np.random.randint(lo, hi)` (with `hi > lo` in the call
being modelled): each draw lands in [lo, hi). -/
def npRandint (rngY : Nat → Nat) (lo hi i : Nat) : Nat :=
  lo + rngY i % (hi - lo)

/-- `Dataset.from_tensor_slices` on length-`size` arrays followed by
`.repeat()`: the infinite stream cycling through the `size` slices. -/
def repeatStream {α : Type} (data : Nat → α) (size : Nat) : Nat → α :=
  fun i => data (i % size)

/-- `Dataset.batch(bs, drop_remainder=True)` on an infinite stream: batch `n`
is the list of the `bs` elements starting at position `n * bs`. -/
def batchStream {α : Type} (s : Nat → α) (bs : Nat) : Nat → List α :=
  fun n => (List.range bs).map (fun j => s (n * bs + j))

/-- The infinite element stream of the dataset built by `train_input_fn`,
before batching: the 100 fabricated (image, label) pairs, repeated. -/
def train_input_elems (rngX : Nat → Rat) (rngY : Nat → Nat) :
    Nat → Img × Nat :=
  repeatStream
    (fun i => (npRandImage rngX i, npRandint rngY 0 NUM_CLASSES i)) 100

/-- The batch stream of the dataset built by `train_input_fn`: the element
stream batched with `drop_remainder=True` at the batch size
`params.get('train_batch_size', 16)`. -/
def train_input_batches (params : InputParams)
    (rngX : Nat → Rat) (rngY : Nat → Nat) : Nat → List (Img × Nat) :=
  batchStream (train_input_elems rngX rngY) (params.train_batch_size.getD 16)

/-! ## main : configuration objects and framework-call trace -/

/-- Arguments of `tf.contrib.tpu.TPUConfig(...)` in `main`. -/
structure TPUConfigData where
  num_shards : Nat
  iterations_per_loop : Nat
deriving DecidableEq, Repr

/-- Arguments of the TPU `tf.contrib.tpu.RunConfig(...)` in `main`; the
`cluster` field carries the `tpu` argument the `TPUClusterResolver` was
constructed from. -/
structure TPURunConfigData where
  cluster : Option String
  model_dir : String
  tpu_config : TPUConfigData
  save_checkpoints_steps : Nat
  save_summary_steps : Nat
deriving DecidableEq, Repr

/-- Arguments of the plain `tf.estimator.RunConfig(...)` in `main`. -/
structure RunConfigData where
  model_dir : String
deriving DecidableEq, Repr

/-- Arguments of `tf.contrib.tpu.TPUEstimator(...)` in `main` (besides
`model_fn`); `params` is the `vars(args)` dict. -/
structure TPUEstimatorData where
  config : TPURunConfigData
  params : Args
  train_batch_size : Nat
  eval_batch_size : Nat
  export_to_tpu : Bool
deriving DecidableEq, Repr

/-- Arguments of the plain `tf.estimator.Estimator(...)` in `main`. -/
structure EstimatorData where
  config : RunConfigData
  params : Args
deriving DecidableEq, Repr

/-- One call from `main` into the external framework. -/
inductive ExtCall where
  | tpuClusterResolver (tpu : Option String)
  | tpuConfig (c : TPUConfigData)
  | tpuRunConfig (c : TPURunConfigData)
  | tpuEstimator (e : TPUEstimatorData)
  | runConfig (c : RunConfigData)
  | estimator (e : EstimatorData)
  | estimatorTrain (max_steps : Nat)
deriving DecidableEq, Repr

/-- Whether a call constructs one of the TPU-specific objects
(`TPUClusterResolver`, `TPUConfig`, TPU `RunConfig`, `TPUEstimator`). -/
def ExtCall.isTPUConstruction : ExtCall → Bool
  | .tpuClusterResolver _ => true
  | .tpuConfig _ => true
  | .tpuRunConfig _ => true
  | .tpuEstimator _ => true
  | _ => false

/-- Whether a call constructs one of the plain fallback objects
(`tf.estimator.RunConfig`, `tf.estimator.Estimator`). -/
def ExtCall.isPlainConstruction : ExtCall → Bool
  | .runConfig _ => true
  | .estimator _ => true
  | _ => false

/-- Whether a call delegates the training loop (`estimator.train`). -/
def ExtCall.isTrainCall : ExtCall → Bool
  | .estimatorTrain _ => true
  | _ => false

/-- The `TPUConfig` built by `main` on the TPU path:
`num_shards=8` (hard-coded for a Cloud TPU v2-8) and
`iterations_per_loop=args.save_checkpoints_steps`. -/
def mainTPUConfig (args : Args) : TPUConfigData :=
  { num_shards := 8
  , iterations_per_loop := args.save_checkpoints_steps }

/-- The TPU `RunConfig` built by `main`: cluster from the resolver on
`args.tpu`, `model_dir` and `save_checkpoints_steps` from flags,
`save_summary_steps=100` hard-coded. -/
def mainTPURunConfig (args : Args) : TPURunConfigData :=
  { cluster := args.tpu
  , model_dir := args.model_dir
  , tpu_config := mainTPUConfig args
  , save_checkpoints_steps := args.save_checkpoints_steps
  , save_summary_steps := 100 }

/-- The `TPUEstimator` built by `main`: config and params threaded through,
`train_batch_size` from the flag, `eval_batch_size=32` and
`export_to_tpu=False` hard-coded. -/
def mainTPUEstimator (args : Args) : TPUEstimatorData :=
  { config := mainTPURunConfig args
  , params := args
  , train_batch_size := args.train_batch_size
  , eval_batch_size := 32
  , export_to_tpu := false }

/-- Shallow embedding of `main`: the sequence of framework calls it issues,
branching on `args.use_tpu` and ending with the single
`estimator.train(train_input_fn, max_steps=args.max_steps)` call. -/
def mainCalls (args : Args) : List ExtCall :=
  if args.use_tpu then
    [ ExtCall.tpuClusterResolver args.tpu
    , ExtCall.tpuConfig (mainTPUConfig args)
    , ExtCall.tpuRunConfig (mainTPURunConfig args)
    , ExtCall.tpuEstimator (mainTPUEstimator args)
    , ExtCall.estimatorTrain args.max_steps ]
  else
    [ ExtCall.runConfig { model_dir := args.model_dir }
    , ExtCall.estimator { config := { model_dir := args.model_dir }, params := args }
    , ExtCall.estimatorTrain args.max_steps ]

/-! ## __main__ : colab environment branch -/

/-- The environment facts the `__main__` block consults: whether the module
`google.colab` is in `sys.modules`, and the value of the `COLAB_TPU_ADDR`
environment variable when set. -/
structure Env where
  colab_in_sys_modules : Bool
  colab_tpu_addr : Option String
deriving DecidableEq, Repr

/-- Shallow embedding of the argument rewriting the `__main__` block performs
between `parse_known_args` and the call to `main`: outside colab the args
pass through unchanged; inside colab `model_dir` is pointed at a GCS bucket,
and when `COLAB_TPU_ADDR` is set, `tpu` is set to its grpc address and
`use_tpu` to true. -/
def resolveArgs (env : Env) (args : Args) : Args :=
  if env.colab_in_sys_modules then
    let args := { args with model_dir := "gs://your-gcs-bucket" }
    match env.colab_tpu_addr with
    | some addr => { args with tpu := some ("grpc://" ++ addr), use_tpu := true }
    | none => args
  else
    args

/-! ## Theorems for the claims -/

/-- Claim C2: for every mode and params, `model_fn` creates exactly two
convolution-plus-pooling stages (a conv2d followed by a max-pooling layer,
twice) followed by a single dense classification head of output width
`NUM_CLASSES = 10`, and the conv2d and dense layers are the only trainable
layers created. -/
theorem C2_two_conv_pool_stages_one_dense (mode : ModeKeys)
    (params : ModelFnParams) :
    (model_fn mode params).1 =
      [ LayerOp.conv2d 16 (4, 4) (2, 2)
      , LayerOp.max_pooling2d (4, 4) (2, 2)
      , LayerOp.conv2d 32 (1, 1) (1, 1)
      , LayerOp.max_pooling2d (2, 2) (2, 2)
      , LayerOp.reshape
      , LayerOp.dense NUM_CLASSES
      , LayerOp.multinomial 1 ]
  ∧ ((model_fn mode params).1.filter LayerOp.isTrainable) =
      [ LayerOp.conv2d 16 (4, 4) (2, 2)
      , LayerOp.conv2d 32 (1, 1) (1, 1)
      , LayerOp.dense NUM_CLASSES ]
  ∧ NUM_CLASSES = 10 :=
  ⟨rfl, rfl, rfl⟩

/-- Claim C8: the estimator spec returned by `model_fn` carries a loss and a
train op exactly when the mode is TRAIN; in every other mode both are None. -/
theorem C8_loss_and_train_op_iff_train_mode (mode : ModeKeys)
    (params : ModelFnParams) :
    (model_fn mode params).2.loss.isSome = decide (mode = ModeKeys.TRAIN)
  ∧ (model_fn mode params).2.train_op.isSome = decide (mode = ModeKeys.TRAIN) := by
  cases mode <;> exact ⟨rfl, rfl⟩

/-- Claim C4: `use_tpu` fully determines the accelerator-versus-fallback
path.  `main` issues the TPU-specific constructions (`TPUClusterResolver`,
`TPUConfig`, TPU `RunConfig`, `TPUEstimator`) exactly when `args.use_tpu` is
true and the plain constructions (`RunConfig`, `Estimator`) exactly when it
is false; `model_fn` returns a `TPUEstimatorSpec` exactly when
`params['use_tpu']` is true (an ordinary `EstimatorSpec` otherwise), and the
optimizer it builds in TRAIN mode is wrapped in `CrossShardOptimizer`
exactly when `params['use_tpu']` is true. -/
theorem C4_use_tpu_determines_path (args : Args) (mode : ModeKeys)
    (params : ModelFnParams) :
    (mainCalls args).any ExtCall.isTPUConstruction = args.use_tpu
  ∧ (mainCalls args).any ExtCall.isPlainConstruction = !args.use_tpu
  ∧ decide ((model_fn mode params).2.kind = SpecKind.TPUEstimatorSpec)
      = params.use_tpu
  ∧ trainOpIsCrossShard (model_fn mode params).2
      = (params.use_tpu && decide (mode = ModeKeys.TRAIN)) := by
  rcases args with ⟨md, ms, tb, sc, ut, tp⟩
  rcases params with ⟨pu⟩
  cases ut <;> cases pu <;> cases mode <;>
    simp [mainCalls, model_fn, trainOpIsCrossShard, Optimizer.isCrossShard,
      ExtCall.isTPUConstruction, ExtCall.isPlainConstruction]

/-- Claim C6: the only call through which `main` hands off control of the
training run is the single trailing `estimator.train(train_input_fn,
max_steps=args.max_steps)`; every other framework call merely constructs a
configuration or estimator object, so the program itself performs no
scheduling, concurrency coordination, storage, protocol handling, or
recovery — those concerns live behind that one delegated call. -/
theorem C6_single_train_delegation (args : Args) :
    (mainCalls args).filter ExtCall.isTrainCall
      = [ExtCall.estimatorTrain args.max_steps]
  ∧ (mainCalls args).getLast? = some (ExtCall.estimatorTrain args.max_steps)
  ∧ (mainCalls args).all
      (fun c => c.isTPUConstruction || c.isPlainConstruction || c.isTrainCall)
      = true := by
  rcases args with ⟨md, ms, tb, sc, ut, tp⟩
  cases ut <;>
    simp [mainCalls, ExtCall.isTrainCall, ExtCall.isTPUConstruction,
      ExtCall.isPlainConstruction]

/-- A concrete TPU-path argument vector: every numeric flag differs from 8,
100 and 32, so the hard-coded configuration constants cannot be flag values. -/
def argsC1 : Args :=
  { model_dir := "gs://bucket"
  , max_steps := 1
  , train_batch_size := 2
  , save_checkpoints_steps := 3
  , use_tpu := true
  , tpu := none }

/-- Claim C1 counterexample: with `use_tpu` true, `main` hands the framework
a `TPUConfig` whose `num_shards` field is 8 even though no CLI flag of the
invocation carries the value 8 — so not every configuration field value
originates from a CLI flag. -/
theorem C1_counterexample_num_shards_not_a_flag :
    ExtCall.tpuConfig (mainTPUConfig argsC1) ∈ mainCalls argsC1
  ∧ (mainTPUConfig argsC1).num_shards = 8
  ∧ (flagNatValues argsC1).contains 8 = false := by
  refine ⟨?_, rfl, rfl⟩
  simp [mainCalls, argsC1]

/-- Claim C1 (amended): on the TPU path the flag-derived configuration
fields are exact pass-throughs of the parsed CLI flags
(`iterations_per_loop` and `save_checkpoints_steps` from
`--save-checkpoints-steps`, `cluster` from `--tpu`, `model_dir` from
`--model-dir`, `train_batch_size` from `--train-batch-size`, `params` from
the whole arg vector), while the remaining fields are hard-coded constants:
`num_shards = 8`, `save_summary_steps = 100`, `eval_batch_size = 32`,
`export_to_tpu = False`. -/
theorem C1_flag_passthrough_with_hardcoded_constants (args : Args) :
    (mainTPUConfig args).iterations_per_loop = args.save_checkpoints_steps
  ∧ (mainTPURunConfig args).cluster = args.tpu
  ∧ (mainTPURunConfig args).model_dir = args.model_dir
  ∧ (mainTPURunConfig args).tpu_config = mainTPUConfig args
  ∧ (mainTPURunConfig args).save_checkpoints_steps = args.save_checkpoints_steps
  ∧ (mainTPUEstimator args).config = mainTPURunConfig args
  ∧ (mainTPUEstimator args).params = args
  ∧ (mainTPUEstimator args).train_batch_size = args.train_batch_size
  ∧ (mainTPUConfig args).num_shards = 8
  ∧ (mainTPURunConfig args).save_summary_steps = 100
  ∧ (mainTPUEstimator args).eval_batch_size = 32
  ∧ (mainTPUEstimator args).export_to_tpu = false :=
  ⟨rfl, rfl, rfl, rfl, rfl, rfl, rfl, rfl, rfl, rfl, rfl, rfl⟩

/-- Claim C3: `train_input_fn` produces only synthetic random data.  For
every params, the pipeline it builds reads no external data source and its
sole source node is tensor slices of 100 fabricated 28x28x1 images drawn by
the uniform-[0,1) float generator and 100 labels drawn by the uniform
integer generator on [0, NUM_CLASSES); at runtime every feature value lies
in [0, 1) and every label in [0, NUM_CLASSES). -/
theorem C3_synthetic_random_data_only (params : InputParams)
    (rngX : Nat → Rat) (rngY : Nat → Nat) :
    (train_input_fn params).readsExternalData = false
  ∧ (train_input_fn params).sourceOf =
      DatasetExpr.fromTensorSlices RandomGen.uniformFloat01 [100, 28, 28, 1]
        (RandomGen.uniformInt 0 NUM_CLASSES) [100]
  ∧ (∀ i r c ch, 0 ≤ (train_input_elems rngX rngY i).1 r c ch
      ∧ (train_input_elems rngX rngY i).1 r c ch < 1)
  ∧ (∀ i, (train_input_elems rngX rngY i).2 < NUM_CLASSES) := by
  refine ⟨rfl, rfl, ?_, ?_⟩
  · intro i r c ch
    exact ⟨Int.fract_nonneg _, Int.fract_lt_one _⟩
  · intro i
    have h : rngY (i % 100) % 10 < 10 := Nat.mod_lt _ (by norm_num)
    simpa [train_input_elems, repeatStream, npRandint, NUM_CLASSES] using h

/-- Claim C7: for every params, the element shapes of the dataset built by
`train_input_fn` are fully static — `(batch_size, 28, 28, 1)` for features
and `(batch_size,)` for labels, with `batch_size` equal to
`params['train_batch_size']` when present and 16 otherwise — and, batching
with `drop_remainder=True`, every batch the pipeline yields has exactly
`batch_size` elements. -/
theorem C7_static_shapes_and_full_batches (params : InputParams)
    (rngX : Nat → Rat) (rngY : Nat → Nat) :
    elementShapes (train_input_fn params) =
      some ( [ some (params.train_batch_size.getD 16)
             , some 28, some 28, some 1 ]
           , [ some (params.train_batch_size.getD 16) ] )
  ∧ ∀ n, (train_input_batches params rngX rngY n).length =
      params.train_batch_size.getD 16 := by
  refine ⟨rfl, ?_⟩
  intro n
  simp [train_input_batches, batchStream]

/-- Claim C9: the dataset built by `train_input_fn` repeats its 100
fabricated examples indefinitely — the element at every position `i` of the
infinite stream is the fabricated example `i % 100`, so the stream never
exhausts — and every label it ever yields lies in `[0, NUM_CLASSES - 1]`,
i.e. `[0, 9]`. -/
theorem C9_repeats_indefinitely_and_labels_in_range (rngX : Nat → Rat)
    (rngY : Nat → Nat) (i : Nat) :
    train_input_elems rngX rngY i = train_input_elems rngX rngY (i % 100)
  ∧ (train_input_elems rngX rngY i).2 ≤ NUM_CLASSES - 1 := by
  have hmod : i % 100 % 100 = i % 100 := by omega
  constructor
  · simp [train_input_elems, repeatStream, hmod]
  · have h : rngY (i % 100) % 10 < 10 := Nat.mod_lt _ (by norm_num)
    simp only [train_input_elems, repeatStream, npRandint, NUM_CLASSES]
    omega

/-- Claim C5: the colab authentication branch executes only when module
`google.colab` is present in `sys.modules`: in every other environment the
parsed args reach `main` unchanged; and even within that branch, `use_tpu`
and `tpu` are overridden only when the `COLAB_TPU_ADDR` environment variable
is set. -/
theorem C5_colab_branch_scoping (env : Env) (args : Args) :
    (env.colab_in_sys_modules = false → resolveArgs env args = args)
  ∧ (env.colab_tpu_addr = none →
      (resolveArgs env args).use_tpu = args.use_tpu
    ∧ (resolveArgs env args).tpu = args.tpu) := by
  rcases env with ⟨colab, addr⟩
  constructor
  · intro h
    subst h
    rfl
  · intro h
    subst h
    cases colab <;> exact ⟨rfl, rfl⟩

/-- Claim C5 witness: at the default argument vector, leaving colab out of
`sys.modules` passes the args through unchanged, and inside the colab branch
with `COLAB_TPU_ADDR` unset the `use_tpu` flag keeps its parsed value. -/
theorem C5_colab_branch_scoping_witness :
    resolveArgs ⟨false, none⟩ {} = ({} : Args)
  ∧ (resolveArgs ⟨true, none⟩ {}).use_tpu = ({} : Args).use_tpu :=
  ⟨(C5_colab_branch_scoping ⟨false, none⟩ {}).1 rfl
  , ((C5_colab_branch_scoping ⟨true, none⟩ {}).2 rfl).1⟩

end Trainer
